import Mathlib

/-!
Verification of the MoviePilot-Plugins repository (plugins `doubanrankplus`,
`episodenoexist`, `migratesub`) against its natural-language specification.

The Python plugins are shallowly embedded: each relevant function is
translated into an executable Lean definition; host services (media
recognition, the TMDB matcher, the subscription store) that live outside
this repository are either modelled from the spec or abstracted as oracle
parameters.  Machine integers do not occur in the translated fragments;
Python lists become `List`, Python dicts become association lists with
unique keys, `None`-able values become `Option`.
-/

/-! ## Calendar dates (for `EpisodeNoExist.__filter_episodes`)

`__filter_episodes` parses the TMDB `air_date` string `"%Y-%m-%d"` and
compares the resulting `date()` values.  A parsed date is embedded as a
year/month/day triple; the `<` comparison on Python `date` objects is the
lexicographic comparison below. -/

structure Date where
  year : Nat
  month : Nat
  day : Nat
deriving DecidableEq

/-- Python `date.__lt__`: lexicographic on (year, month, day). -/
def Date.lt (a b : Date) : Bool :=
  a.year < b.year ||
    (a.year == b.year && (a.month < b.month ||
      (a.month == b.month && a.day < b.day)))

/-- One episode record returned by `TmdbChain.tmdb_episodes`: the
`episode_number` and the parsed `air_date` (`none` when the field is
missing or empty, which Python treats as falsy). -/
structure TmdbEpisode where
  episode_number : Nat
  air_date : Option Date
deriving DecidableEq

/-- `EpisodeNoExist.__filter_episodes` (episodenoexist/__init__.py:676-701):
walks the episode list and keeps the `episode_number` of each non-null
episode whose `air_date` is present and strictly before the current date.
The list elements are `Option` to reflect the `if episode and ...` null
check of the source. -/
def filterEpisodes (current_date : Date) : List (Option TmdbEpisode) → List Nat
  | [] => []
  | ep :: rest =>
    match ep with
    | some e =>
      match e.air_date with
      | some d =>
        if Date.lt d current_date then
          e.episode_number :: filterEpisodes current_date rest
        else
          filterEpisodes current_date rest
      | none => filterEpisodes current_date rest
    | none => filterEpisodes current_date rest

/-! ## Season gap detection (`EpisodeNoExist.__get_item_no_exist_info`) -/

/-- Python `list(set(a).difference(set(b)))`: the set of elements of `a`
that are not in `b`.  A Python `set` has no specified order; the embedding
fixes one representative order (first occurrence in `a`). -/
def setDifference (a b : List Nat) : List Nat :=
  a.dedup.filter (fun x => decide (x ∉ b))

/-- The per-season record `EpisodeNoExistInfo` of the plugin
(episodenoexist/__init__.py:58-66). -/
structure EpisodeNoExistInfo where
  season : Nat
  episode_no_exist : List Nat
  episode_total : Nat
deriving DecidableEq

/-- The per-season body of the `else` branch of
`EpisodeNoExist.__get_item_no_exist_info` (episodenoexist/__init__.py:601-659):
given whether the season is already subscribed, the TMDB aired-episode
numbers `filted_episodes` and the episode numbers already in the media
server (`none` when the media server reported no entry for the season),
it returns the season record appended by `__append_season_info`, or `none`
when the iteration `continue`s without recording the season. -/
def seasonGapStep (subscribed : Bool) (season : Nat)
    (filted_episodes : List Nat) (exist_episode : Option (List Nat)) :
    Option EpisodeNoExistInfo :=
  if filted_episodes.isEmpty then
    none
  else
    let episode_total := filted_episodes.length
    match exist_episode with
    | some ex =>
      if ex.isEmpty then
        if subscribed then none
        else some ⟨season, [], episode_total⟩
      else
        let lack_episode := setDifference filted_episodes ex
        if lack_episode.isEmpty then none
        else if subscribed then none
        else some ⟨season, lack_episode, episode_total⟩
    | none =>
      if subscribed then none
      else some ⟨season, [], episode_total⟩

/-! ## Theorems for claims C2 and C3 -/

theorem setDifference_mem (a b : List Nat) (n : Nat) :
    n ∈ setDifference a b ↔ (n ∈ a ∧ n ∉ b) := by
  simp [setDifference]

/-- C2: for a season whose existing episode set is non-empty, the computed
missing-episode list is exactly the set difference of the TMDB aired set
minus the existing set; when the difference is empty no season entry is
recorded, and otherwise (season not yet subscribed) the recorded entry
carries exactly that difference and the aired total. -/
theorem missing_episodes_are_set_difference
    (filted ex : List Nat) (season : Nat)
    (hf : filted ≠ []) (he : ex ≠ []) :
    (∀ n, n ∈ setDifference filted ex ↔ (n ∈ filted ∧ n ∉ ex))
    ∧ (∀ subscribed, setDifference filted ex = [] →
        seasonGapStep subscribed season filted (some ex) = none)
    ∧ (setDifference filted ex ≠ [] →
        seasonGapStep false season filted (some ex) =
          some ⟨season, setDifference filted ex, filted.length⟩) := by
  refine ⟨fun n => setDifference_mem filted ex n, ?_, ?_⟩
  · intro subscribed hdiff
    simp [seasonGapStep, hf, he, hdiff]
  · intro hdiff
    simp [seasonGapStep, hf, he, hdiff]

/-- Witness for C2: the spec's example, existing set {1,2} against aired
set {1,2,3} gives missing set {3}, recorded with total 3. -/
theorem missing_episodes_are_set_difference_witness :
    seasonGapStep false 7 [1, 2, 3] (some [1, 2]) = some ⟨7, [3], 3⟩ := by
  have h := (missing_episodes_are_set_difference [1, 2, 3] [1, 2] 7
    (by decide) (by decide)).2.2 (by decide)
  rw [show setDifference [1, 2, 3] [1, 2] = [3] from by decide] at h
  exact h

/-- C3: an episode number enters the aired set exactly when the episode is
present, has an air date, and that air date is strictly before the current
date; in the spec's example (now = 2024-01-01) the 2020-01-01 episode
counts and the 2099-01-01 episode does not. -/
theorem aired_set_is_strictly_before_now :
    (∀ (now : Date) (eps : List (Option TmdbEpisode)) (n : Nat),
      n ∈ filterEpisodes now eps ↔
        ∃ e : TmdbEpisode, some e ∈ eps ∧ e.episode_number = n ∧
          ∃ d : Date, e.air_date = some d ∧ Date.lt d now = true)
    ∧ filterEpisodes ⟨2024, 1, 1⟩
        [some ⟨1, some ⟨2020, 1, 1⟩⟩, some ⟨2, some ⟨2099, 1, 1⟩⟩] = [1] := by
  constructor
  · intro now eps n
    induction eps with
    | nil => simp [filterEpisodes]
    | cons ep rest ih =>
      rcases ep with _ | e
      · rw [show filterEpisodes now (none :: rest) = filterEpisodes now rest from rfl,
          ih]
        constructor
        · rintro ⟨f, hf, h2⟩
          exact ⟨f, List.mem_cons_of_mem _ hf, h2⟩
        · rintro ⟨f, hf, h2⟩
          rcases List.mem_cons.mp hf with hf | hf
          · cases hf
          · exact ⟨f, hf, h2⟩
      · rcases hd : e.air_date with _ | d
        · rw [show filterEpisodes now (some e :: rest) = filterEpisodes now rest from
            by simp [filterEpisodes, hd], ih]
          constructor
          · rintro ⟨f, hf, h2⟩
            exact ⟨f, List.mem_cons_of_mem _ hf, h2⟩
          · rintro ⟨f, hf, h2, d', hdate, hlt⟩
            rcases List.mem_cons.mp hf with hf | hf
            · obtain rfl : f = e := Option.some_inj.mp hf
              rw [hd] at hdate
              cases hdate
            · exact ⟨f, hf, h2, d', hdate, hlt⟩
        · by_cases hlt : Date.lt d now = true
          · rw [show filterEpisodes now (some e :: rest) =
                e.episode_number :: filterEpisodes now rest from
              by simp [filterEpisodes, hd, hlt], List.mem_cons, ih]
            constructor
            · rintro (rfl | ⟨f, hf, h2⟩)
              · exact ⟨e, List.mem_cons_self _ _, rfl, d, hd, hlt⟩
              · exact ⟨f, List.mem_cons_of_mem _ hf, h2⟩
            · rintro ⟨f, hf, h2, d', hdate, hlt'⟩
              rcases List.mem_cons.mp hf with hf | hf
              · obtain rfl : f = e := Option.some_inj.mp hf
                exact Or.inl h2.symm
              · exact Or.inr ⟨f, hf, h2, d', hdate, hlt'⟩
          · rw [show filterEpisodes now (some e :: rest) = filterEpisodes now rest from
              by simp [filterEpisodes, hd, hlt], ih]
            constructor
            · rintro ⟨f, hf, h2⟩
              exact ⟨f, List.mem_cons_of_mem _ hf, h2⟩
            · rintro ⟨f, hf, h2, d', hdate, hlt'⟩
              rcases List.mem_cons.mp hf with hf | hf
              · obtain rfl : f = e := Option.some_inj.mp hf
                rw [hd] at hdate
                obtain rfl : d = d' := Option.some_inj.mp hdate
                exact absurd hlt' hlt
              · exact ⟨f, hf, h2, d', hdate, hlt'⟩
  · decide

/-! ## Persisted history of the rank plugin (`doubanrankplus`)

One element of the JSON history list (`HistoryPayload`,
doubanrankplus/__init__.py:52-64).  The float field `vote` and the two
timestamp strings are display-only and omitted; every claim about the
history concerns the `unique` key and the remaining string fields. -/

structure HistoryPayload where
  title : String
  year : String
  tmdbid : String
  doubanid : String
  unique : String
  status : String
deriving DecidableEq

/-- The list update of `DoubanRankPlus.delete_history`
(doubanrankplus/__init__.py:1000):
`historys = [h for h in historys if h.get("unique") != key]`. -/
def deleteHistoryFilter (key : String) (historys : List HistoryPayload) :
    List HistoryPayload :=
  historys.filter (fun h => h.unique != key)

/-! ## Persisted history of the episode-gap plugin (`episodenoexist`) -/

/-- `TvNoExistInfo` (episodenoexist/__init__.py:69-88).  Display-only
fields (poster, vote, last air date) are omitted; `tmdbid = 0` is the
falsy default of the source.  The per-season dict becomes an association
list with unique keys. -/
structure TvNoExistInfo where
  title : String
  year : String
  path : String
  tmdbid : Nat
  season_episode_no_exist_info : List (Nat × EpisodeNoExistInfo)
deriving DecidableEq

/-- One value of the `details` dict (`HistoryDetail`,
episodenoexist/__init__.py:91-95).  In the plugin every detail is created
by `__append_history` with a `TvNoExistInfo`, so the field is not
optional here. -/
structure HistoryDetail where
  exist_status : String
  tv_no_exist_info : TvNoExistInfo
  last_update : String
  last_update_full : String
deriving DecidableEq

/-- The persisted `History` dict (episodenoexist/__init__.py:102-104).
The Python dict `details` has unique keys; it is embedded as an
association list. -/
structure EpHistory where
  item_unique_flags : List String
  details : List (String × HistoryDetail)
deriving DecidableEq

/-- Python `unique in historys["details"]` on the embedded dict. -/
def detailsContains (d : List (String × HistoryDetail)) (k : String) : Bool :=
  d.any (fun p => p.1 == k)

/-- Python `del historys["details"][unique]`: a dict has unique keys, so
deleting the key removes exactly the entries carrying it. -/
def detailsDelete (d : List (String × HistoryDetail)) (k : String) :
    List (String × HistoryDetail) :=
  d.filter (fun p => p.1 != k)

/-- Python `historys["details"][unique]["exist_status"] = new_status`. -/
def detailsSetStatus (d : List (String × HistoryDetail)) (k new_status : String) :
    List (String × HistoryDetail) :=
  d.map (fun p =>
    if p.1 == k then (p.1, { p.2 with exist_status := new_status }) else p)

/-- Python `historys["details"].get(key)`-like first lookup. -/
def detailsFind (d : List (String × HistoryDetail)) (k : String) :
    Option HistoryDetail :=
  match d.find? (fun p => p.1 == k) with
  | some p => some p.2
  | none => none

/-- `EpisodeNoExist.__remove_history_by_unique`
(episodenoexist/__init__.py:738-750): always filters the flag out of
`item_unique_flags`, then deletes the `details` entry when present,
returning whether it was present together with the updated record. -/
def removeHistoryByUnique (historys : EpHistory) (unique : String) :
    Bool × EpHistory :=
  let flags := historys.item_unique_flags.filter (fun item => item != unique)
  if detailsContains historys.details unique then
    (true, ⟨flags, detailsDelete historys.details unique⟩)
  else
    (false, ⟨flags, historys.details⟩)

/-- `EpisodeNoExist.__update_exist_status_by_unique`
(episodenoexist/__init__.py:818-826). -/
def updateExistStatus (historys : EpHistory) (unique new_status : String) :
    Bool × EpHistory :=
  if detailsContains historys.details unique then
    (true, ⟨historys.item_unique_flags,
      detailsSetStatus historys.details unique new_status⟩)
  else
    (false, historys)

/-! ## Host subscription store (modelled from the spec) -/

/-- One subscription row, reduced to the identity fields the plugins'
existence checks use. -/
structure SubRow where
  tmdbid : Option Nat
  doubanid : Option String
  season : Option Nat
deriving DecidableEq

/-- Modelled from the spec: the host ORM existence check
`subscribeoper.exists(tmdbid, doubanid, season)` is not part of this
repository (only its callers are).  Spec §4: "before creating any
subscription row, check existence by TMDB id/Douban id (+season)" —
a row matches on the TMDB id when one is supplied, otherwise on the
Douban id, and a supplied season must match as well. -/
def subscribeExists (tmdbid : Option Nat) (doubanid : Option String)
    (season : Option Nat) (subs : List SubRow) : Bool :=
  subs.any (fun s =>
    (match tmdbid with
     | some t => s.tmdbid == some t
     | none =>
       match doubanid with
       | some d => s.doubanid == some d
       | none => false)
    && (match season with
        | some se => s.season == some se
        | none => true))

/-- Python `str(x)` on an optional string (`str(None) = "None"`), as used
by `MigrateSub.__add_sub` on the Douban id. -/
def pyStr : Option String → String
  | some s => s
  | none => "None"

/-- The identity fields of one migrated subscription item
(`MigrateSub.__add_sub`); the remaining fields are copied opaquely into
the created row and play no role in the claims. -/
structure MigrateSubItem where
  name : String
  year : String
  tmdbid : Option Nat
  doubanid : Option String
  season : Option Nat
deriving DecidableEq

/-- `MigrateSub.__add_sub` (migratesub/__init__.py:553-591): check
existence by TMDB id / stringified Douban id / season; create the row
only when absent; otherwise return a not-added result and leave the
store unchanged. -/
def migrateAddSub (item : MigrateSubItem) (subs : List SubRow) :
    (Bool × String) × List SubRow :=
  let item_name_year := item.name ++ item.year
  let is_sub_exists :=
    subscribeExists item.tmdbid (some (pyStr item.doubanid)) item.season subs
  if !is_sub_exists then
    ((true, item_name_year ++ "  添加订阅成功"),
      subs ++ [⟨item.tmdbid, item.doubanid, item.season⟩])
  else
    ((false, "订阅已存在，跳过"), subs)

/-- `EpisodeNoExist.__checke_and_add_subscribe`
(episodenoexist/__init__.py:752-816): returns `true` immediately when a
subscription with the same TMDB id and season exists; otherwise asks the
host chain to add one (`addOk` abstracts that host call; a successful
add appends the row).  Save-path replacement and the total-episode
argument do not affect the store's identity fields and are omitted. -/
def epCheckeAndAddSubscribe (tmdbid season : Nat) (addOk : Bool)
    (subs : List SubRow) : Bool × List SubRow :=
  if subscribeExists (some tmdbid) none (some season) subs then
    (true, subs)
  else if addOk then
    (true, subs ++ [⟨some tmdbid, none, some season⟩])
  else
    (false, subs)

/-! ## The "subscribe missing seasons" flow (`episodenoexist`) -/

/-- The configured history-type strings (`HistoryDataType`,
episodenoexist/__init__.py:33-40).  `_history_type` itself is a plain
string holding one of the `value`s. -/
inductive HistoryDataType where
  | ALL_EXIST
  | ADDED_RSS
  | NO_EXIST
  | FAILED
  | ALL
  | LATEST
  | NOT_ALL_NO_EXIST
deriving DecidableEq

/-- The `value` attribute of the enum members. -/
def HistoryDataType.val : HistoryDataType → String
  | .ALL_EXIST => "全部存在"
  | .ADDED_RSS => "已加订阅"
  | .NO_EXIST => "存在缺失"
  | .FAILED => "失败记录"
  | .ALL => "所有记录"
  | .LATEST => "最新6条记录"
  | .NOT_ALL_NO_EXIST => "非全集缺失"

/-- A dynamically typed Python value as far as the guard at
episodenoexist/__init__.py:871 can see one: either a `str` or a
`HistoryDataType` enum member. -/
inductive PyVal where
  | str (s : String)
  | enum (e : HistoryDataType)
deriving DecidableEq

/-- Python `==` between such values: `str.__eq__` compares strings,
`Enum.__eq__` is identity, and a `str` never equals an `Enum` member. -/
def pyEq : PyVal → PyVal → Bool
  | .str a, .str b => a == b
  | .enum a, .enum b => a == b
  | _, _ => false

/-- The per-season loop of `EpisodeNoExist.__add_subscribe_by_tv_no_exist_info`
(episodenoexist/__init__.py:849-904).  `historyType` is the string-valued
`self._history_type`; the guard at line 871 compares it with
`HistoryDataType.NOT_ALL_NO_EXIST` (the member, not its `.value`) via
`pyEq`.  Besides the success flag and the updated store, the embedding
returns the trace of seasons for which `__checke_and_add_subscribe` was
invoked.  A failing add returns `False` immediately, skipping the rest. -/
def addSubscribeSeasonsLoop (historyType : String) (tmdbid : Nat)
    (addOk : Nat → Bool) :
    List (Nat × EpisodeNoExistInfo) → List SubRow →
      Bool × List SubRow × List Nat
  | [], subs => (true, subs, [])
  | (season, season_info) :: rest, subs =>
    if season_info.episode_no_exist.isEmpty
        && pyEq (PyVal.str historyType)
            (PyVal.enum HistoryDataType.NOT_ALL_NO_EXIST) then
      addSubscribeSeasonsLoop historyType tmdbid addOk rest subs
    else
      let r := epCheckeAndAddSubscribe tmdbid season (addOk season) subs
      if r.1 then
        let res := addSubscribeSeasonsLoop historyType tmdbid addOk rest r.2
        (res.1, res.2.1, season :: res.2.2)
      else
        (false, r.2, [season])

/-- `EpisodeNoExist.__add_subscribe_by_tv_no_exist_info`
(episodenoexist/__init__.py:828-904): reject incomplete records (falsy
title/year/tmdbid/season map), then run the per-season loop. -/
def addSubscribeByTvNoExistInfo (historyType : String) (tv : TvNoExistInfo)
    (addOk : Nat → Bool) (subs : List SubRow) :
    Bool × List SubRow × List Nat :=
  if tv.title == "" || tv.year == "" || tv.tmdbid == 0
      || tv.season_episode_no_exist_info.isEmpty then
    (false, subs, [])
  else
    addSubscribeSeasonsLoop historyType tv.tmdbid addOk
      tv.season_episode_no_exist_info subs

/-- `EpisodeNoExist.__add_subscribe_by_unique`
(episodenoexist/__init__.py:906-927). -/
def addSubscribeByUnique (historyType : String) (addOk : Nat → Bool)
    (historys : EpHistory) (unique : String) (subs : List SubRow) :
    Bool × EpHistory × List SubRow :=
  match detailsFind historys.details unique with
  | some detail =>
    let r := addSubscribeByTvNoExistInfo historyType detail.tv_no_exist_info
      addOk subs
    if r.1 then
      let u := updateExistStatus historys unique HistoryDataType.ADDED_RSS.val
      (u.1, u.2, r.2.1)
    else
      (false, historys, r.2.1)
  | none => (false, historys, subs)

/-! ## HTTP GET endpoints -/

/-- The host's `schemas.Response`. -/
structure Response where
  success : Bool
  message : String
deriving DecidableEq

/-- `DoubanRankPlus.delete_history` (doubanrankplus/__init__.py:988-1002):
API-token guard, falsy-history guard (`none` = never saved, `some []` =
empty list), then filter-and-save.  The second component is the persisted
store after the call. -/
def rankDeleteHistory (key apikey api_token : String)
    (store : Option (List HistoryPayload)) :
    Response × Option (List HistoryPayload) :=
  if apikey ≠ api_token then
    (⟨false, "API密钥错误"⟩, store)
  else
    match store with
    | none => (⟨false, "未找到历史记录"⟩, none)
    | some historys =>
      if historys.isEmpty then
        (⟨false, "未找到历史记录"⟩, some historys)
      else
        (⟨true, "删除成功"⟩, some (deleteHistoryFilter key historys))

/-- `EpisodeNoExist.delete_history` (episodenoexist/__init__.py:929-951):
API-token guard, falsy-history guard, then `__remove_history_by_unique`;
the result is saved only on success. -/
def epDeleteHistory (key apikey api_token : String)
    (store : Option EpHistory) : Response × Option EpHistory :=
  if apikey ≠ api_token then
    (⟨false, "API密钥错误"⟩, store)
  else
    match store with
    | none => (⟨false, "未找到检查记录"⟩, none)
    | some historys =>
      let r := removeHistoryByUnique historys key
      if r.1 then
        (⟨true, "删除成功"⟩, some r.2)
      else
        (⟨false, "删除失败"⟩, some historys)

/-- `EpisodeNoExist.add_subscribe_history`
(episodenoexist/__init__.py:953-974): API-token guard, falsy-history
guard, then `__add_subscribe_by_unique`; the history is saved only on
success, while subscription rows created before a failure remain.  The
third component is the subscription store after the call. -/
def epAddSubscribeHistory (key apikey api_token historyType : String)
    (addOk : Nat → Bool) (store : Option EpHistory) (subs : List SubRow) :
    Response × Option EpHistory × List SubRow :=
  if apikey ≠ api_token then
    (⟨false, "API密钥错误"⟩, store, subs)
  else
    match store with
    | none => (⟨false, "未找到检查记录"⟩, none, subs)
    | some historys =>
      let r := addSubscribeByUnique historyType addOk historys key subs
      if r.1 then
        (⟨true, "订阅成功"⟩, some r.2.1, r.2.2)
      else
        (⟨false, "订阅失败"⟩, some historys, r.2.2)

/-- `EpisodeNoExist.set_all_exist_history`
(episodenoexist/__init__.py:976-999). -/
def epSetAllExistHistory (key apikey api_token : String)
    (store : Option EpHistory) : Response × Option EpHistory :=
  if apikey ≠ api_token then
    (⟨false, "API密钥错误"⟩, store)
  else
    match store with
    | none => (⟨false, "未找到检查记录"⟩, none)
    | some historys =>
      let u := updateExistStatus historys key "全部存在"
      if u.1 then
        (⟨true, "标记存在成功"⟩, some u.2)
      else
        (⟨false, "标记存在失败"⟩, some historys)

/-! ## Theorems for claims C6, C7, C4 and C10 -/

/-- C6: deleting a history entry by key removes exactly the entries whose
uniqueness key equals the given key and leaves every other entry unchanged
in value and multiplicity — in the rank plugin's flat history list
(occurrence counts preserved for every payload with a different key) and
in the episode-gap plugin's flag list and details dict. -/
theorem delete_history_removes_exactly_key (key : String)
    (hs : List HistoryPayload) (eh : EpHistory) :
    (∀ p : HistoryPayload, (deleteHistoryFilter key hs).count p =
        if p.unique = key then 0 else hs.count p)
    ∧ (∀ flag : String,
        flag ∈ (removeHistoryByUnique eh key).2.item_unique_flags ↔
          (flag ∈ eh.item_unique_flags ∧ flag ≠ key))
    ∧ (∀ pr : String × HistoryDetail,
        pr ∈ (removeHistoryByUnique eh key).2.details ↔
          (pr ∈ eh.details ∧ pr.1 ≠ key)) := by
  refine ⟨?_, ?_, ?_⟩
  · intro p
    by_cases hu : p.unique = key
    · rw [if_pos hu, List.count_eq_zero]
      intro hmem
      have := List.mem_filter.mp hmem
      simp [hu] at this
    · rw [if_neg hu]
      exact List.count_filter (by simp [hu])
  · intro flag
    unfold removeHistoryByUnique
    by_cases hc : detailsContains eh.details key = true
    · simp [hc, List.mem_filter]
    · simp [hc, List.mem_filter]
  · intro pr
    unfold removeHistoryByUnique
    by_cases hc : detailsContains eh.details key = true
    · simp [hc, detailsDelete, List.mem_filter]
    · have hnone : ∀ q ∈ eh.details, q.1 ≠ key := by
        intro q hq heq
        apply hc
        simp only [detailsContains, List.any_eq_true]
        exact ⟨q, hq, by simp [heq]⟩
      simp only [Bool.not_eq_true] at hc
      simp only [hc, Bool.false_eq_true, if_false]
      constructor
      · intro hmem
        exact ⟨hmem, hnone pr hmem⟩
      · intro hmem
        exact hmem.1

/-- C7: every GET endpoint of the plugins is guarded by the static API
token: with a wrong `apikey` each endpoint answers a failure response and
leaves the persisted history — and, for the subscribe endpoint, the
subscription store — unchanged. -/
theorem api_token_guard_blocks_state_change
    (key apikey api_token historyType : String) (addOk : Nat → Bool)
    (rstore : Option (List HistoryPayload)) (estore : Option EpHistory)
    (subs : List SubRow) (h : apikey ≠ api_token) :
    rankDeleteHistory key apikey api_token rstore
      = (⟨false, "API密钥错误"⟩, rstore)
    ∧ epDeleteHistory key apikey api_token estore
      = (⟨false, "API密钥错误"⟩, estore)
    ∧ epAddSubscribeHistory key apikey api_token historyType addOk estore subs
      = (⟨false, "API密钥错误"⟩, estore, subs)
    ∧ epSetAllExistHistory key apikey api_token estore
      = (⟨false, "API密钥错误"⟩, estore) := by
  refine ⟨?_, ?_, ?_, ?_⟩ <;>
    simp [rankDeleteHistory, epDeleteHistory, epAddSubscribeHistory,
      epSetAllExistHistory, h]

/-- Witness for C7 at a concrete wrong key: the rank plugin's
delete-history endpoint fails and the stored list survives untouched. -/
theorem api_token_guard_blocks_state_change_witness :
    rankDeleteHistory "k" "wrong" "token"
        (some [⟨"t", "2020", "0", "1", "u", "s"⟩])
      = (⟨false, "API密钥错误"⟩, some [⟨"t", "2020", "0", "1", "u", "s"⟩]) :=
  (api_token_guard_blocks_state_change "k" "wrong" "token" "x" (fun _ => true)
    (some [⟨"t", "2020", "0", "1", "u", "s"⟩]) none [] (by decide)).1

/-- C4 counterexample: on a store already holding a subscription for
(tmdbid 100, season 1), `EpisodeNoExist.__checke_and_add_subscribe`
creates no second row but returns `true` — exactly the value it returns
after a fresh successful add — so the operation does not return a
"not added" result as the claim states. -/
theorem subscription_add_existing_counterexample :
    epCheckeAndAddSubscribe 100 1 true [⟨some 100, none, some 1⟩]
      = (true, [⟨some 100, none, some 1⟩])
    ∧ (epCheckeAndAddSubscribe 100 1 true []).1 = true := by
  exact ⟨rfl, rfl⟩

/-- C4 (amended): when a subscription with the same TMDB id/Douban id
(and season, when given) already exists, no second row is created and the
store is unchanged; `MigrateSub.__add_sub` reports this as a not-added
`(False, "订阅已存在，跳过")` result, while the episode-gap plugin's
`__checke_and_add_subscribe` reports plain success (`True`). -/
theorem subscription_add_idempotent
    (item : MigrateSubItem) (subs subs2 : List SubRow)
    (tmdbid season : Nat) (addOk : Bool)
    (hm : subscribeExists item.tmdbid (some (pyStr item.doubanid))
        item.season subs = true)
    (he : subscribeExists (some tmdbid) none (some season) subs2 = true) :
    migrateAddSub item subs = ((false, "订阅已存在，跳过"), subs)
    ∧ epCheckeAndAddSubscribe tmdbid season addOk subs2 = (true, subs2) := by
  constructor
  · simp [migrateAddSub, hm]
  · simp [epCheckeAndAddSubscribe, he]

/-- Witness for C4 (amended) on concrete stores containing the
subscription being re-added. -/
theorem subscription_add_idempotent_witness :
    migrateAddSub ⟨"N", "2020", some 100, none, some 1⟩
        [⟨some 100, none, some 1⟩]
      = ((false, "订阅已存在，跳过"), [⟨some 100, none, some 1⟩])
    ∧ epCheckeAndAddSubscribe 100 1 false [⟨some 100, none, some 1⟩]
      = (true, [⟨some 100, none, some 1⟩]) :=
  subscription_add_idempotent ⟨"N", "2020", some 100, none, some 1⟩
    [⟨some 100, none, some 1⟩] [⟨some 100, none, some 1⟩] 100 1 false
    (by decide) (by decide)

theorem epCheckeAndAddSubscribe_addOk_fst (tmdbid season : Nat)
    (subs : List SubRow) :
    (epCheckeAndAddSubscribe tmdbid season true subs).1 = true := by
  unfold epCheckeAndAddSubscribe
  split
  · rfl
  · rfl

/-- C10: the skip branch for the `NOT_ALL_NO_EXIST` history type in
`__add_subscribe_by_tv_no_exist_info` is unreachable — the string-valued
`_history_type` is compared with the enum member itself, which Python
`==` always decides `False` — so every entirely-missing season (empty
`episode_no_exist` list) is submitted to `__checke_and_add_subscribe`
like any other season (shown by the call trace covering every listed
season when the host add succeeds). -/
theorem not_all_no_exist_skip_unreachable (historyType : String)
    (tmdbid : Nat) (seasons : List (Nat × EpisodeNoExistInfo))
    (subs : List SubRow) :
    pyEq (PyVal.str historyType) (PyVal.enum HistoryDataType.NOT_ALL_NO_EXIST)
      = false
    ∧ (addSubscribeSeasonsLoop historyType tmdbid (fun _ => true)
        seasons subs).2.2 = seasons.map Prod.fst := by
  constructor
  · rfl
  · induction seasons generalizing subs with
    | nil => simp [addSubscribeSeasonsLoop]
    | cons p rest ih =>
      obtain ⟨season, info⟩ := p
      have hg : (info.episode_no_exist.isEmpty
          && pyEq (PyVal.str historyType)
              (PyVal.enum HistoryDataType.NOT_ALL_NO_EXIST)) = false := by
        simp [pyEq]
      simp only [addSubscribeSeasonsLoop, hg, Bool.false_eq_true, if_false]
      simp only [epCheckeAndAddSubscribe_addOk_fst, if_true, List.map_cons]
      rw [ih]

/-! ## Douban IP rate-limit cooldown (`DoubanRankPlus.__refresh_rss`) -/

/-- Python `timedelta.seconds` for a non-negative duration of `elapsed`
whole seconds: `timedelta` normalises to days plus a seconds component in
`[0, 86400)`, and `.seconds` is only that component. -/
def timedeltaSecondsAttr (elapsed : Nat) : Nat :=
  elapsed % 86400

/-- The reset check at doubanrankplus/__init__.py:1134-1143: when a
"last limited at" timestamp is set and `(now - t).seconds > 4200`, it is
cleared.  The state is the elapsed whole seconds since the limit was
recorded (`none` when no limit is pending). -/
def resetIpRateLimit (last : Option Nat) : Option Nat :=
  match last with
  | some elapsed =>
    if timedeltaSecondsAttr elapsed > 4200 then none else some elapsed
  | none => none

/-- The routing decision at doubanrankplus/__init__.py:1146 after the
reset check, `if douban_id and not douban_last_ip_rate_limit_datetime`:
`true` means the item is resolved through the Douban detail lookups,
`false` means the generic `recognize_media` fallback. -/
def usesDoubanLookup (douban_id : Option String) (last : Option Nat) : Bool :=
  match douban_id with
  | some d => !d.isEmpty && (resetIpRateLimit last).isNone
  | none => false

/-- C5 (code bug): with a rate limit recorded, Douban lookups are indeed
suppressed for the whole 70-minute window (4200 s) and resume right after
it (4201 s) — but because the code reads `timedelta.seconds` (the sub-day
component) instead of the total elapsed time, an item processed exactly
24 hours (86400 s) after the limit is still routed to the fallback, even
though far more than 70 minutes have passed, contradicting the claim and
the code's own comment "超过70分钟，重置". -/
theorem douban_cooldown_stuck_after_whole_day :
    usesDoubanLookup (some "30483637") (some 4200) = false
    ∧ usesDoubanLookup (some "30483637") (some 4201) = true
    ∧ usesDoubanLookup (some "30483637") (some 86400) = false
    ∧ 86400 > 4200 := by
  decide

/-! ## The rank plugin's refresh run (`DoubanRankPlus.__refresh_rss`)

The loop body (doubanrankplus/__init__.py:1087-1391) interleaves pure
bookkeeping — the uniqueness-key dedup gate and the history append —
with host calls (recognition, Douban lookups, subscription adds).  The
environment's behaviour for the i-th feed item is abstracted as an
oracle value `ItemOutcome`: every non-skipped item either appends exactly
one history payload carrying its uniqueness key, stops the whole run
(`return` on the stop event or on `_is_exit_ip_rate_limit`), or raises,
which aborts the current feed's loop and falls to the per-feed handler. -/

/-- One parsed RSS item (`RssInfo`, doubanrankplus/__init__.py:67-72). -/
structure RssInfo where
  title : String
  link : String
  mtype : String
  doubanid : Option String
  year : Option String
deriving DecidableEq

/-- The uniqueness key of doubanrankplus/__init__.py:1111-1113:
`f"{self.plugin_config_prefix}{title}_{year}_(DB:{douban_id})"`, with
Python's `None` rendering inside f-strings. -/
def mkUniqueFlag (info : RssInfo) : String :=
  "doubanrankplus_" ++ info.title ++ "_" ++ pyStr info.year
    ++ "_(DB:" ++ pyStr info.doubanid ++ ")"

/-- Oracle value describing what the environment does with one item that
passes the dedup gate. -/
inductive ItemOutcome where
  | record (p : HistoryPayload)
  | halt
  | raiseExc
deriving DecidableEq

/-- How the item loop of one feed ended. -/
inductive LoopExit where
  | normal
  | halted
  | raised
deriving DecidableEq

/-- The mutable state of `__refresh_rss`: the history list and the
`unique_flags` set (embedded as a list with set membership). -/
structure RunState where
  history : List HistoryPayload
  unique_flags : List String
deriving DecidableEq

/-- The per-item loop of `__refresh_rss`
(doubanrankplus/__init__.py:1087-1391): stop-event/halt first, then the
empty-title skip, then the `unique_flag in unique_flags` dedup gate;
every path past the gate appends exactly one payload whose `unique`
field is the computed flag and adds the flag to the set. -/
def processItems (outcome : Nat → ItemOutcome) :
    List RssInfo → Nat → RunState → RunState × LoopExit
  | [], _, st => (st, LoopExit.normal)
  | info :: rest, i, st =>
    match outcome i with
    | ItemOutcome.halt => (st, LoopExit.halted)
    | ItemOutcome.raiseExc =>
      if info.title = "" then
        processItems outcome rest (i + 1) st
      else if mkUniqueFlag info ∈ st.unique_flags then
        processItems outcome rest (i + 1) st
      else
        (st, LoopExit.raised)
    | ItemOutcome.record p =>
      if info.title = "" then
        processItems outcome rest (i + 1) st
      else if mkUniqueFlag info ∈ st.unique_flags then
        processItems outcome rest (i + 1) st
      else
        processItems outcome rest (i + 1)
          ⟨st.history ++ [{ p with unique := mkUniqueFlag info }],
            mkUniqueFlag info :: st.unique_flags⟩

/-- The start of a run (doubanrankplus/__init__.py:1062-1063): the
`unique_flags` set is seeded with the `unique` field of every persisted
history entry. -/
def initRunState (history : List HistoryPayload) : RunState :=
  ⟨history, history.map (fun h => h.unique)⟩

/-- What one feed address contributes: an empty address string (skipped
before the `try` block) or the `__get_rss_info` result, where `[]` covers
both a network failure and a feed without items. -/
inductive FeedFetch where
  | noAddr
  | fetched (items : List RssInfo)
deriving DecidableEq

def FeedFetch.isNoAddr : FeedFetch → Bool
  | .noAddr => true
  | .fetched _ => false

/-- The feed loop of `__refresh_rss` (doubanrankplus/__init__.py:1069-1401):
per feed a `try`/`except`/`finally` whose `finally` always persists the
history accumulated so far (the saved snapshots are collected in the
first component); an exception only ends the current feed's item loop,
while a halt ends the whole run (after the `finally` save). -/
def refreshFeeds (outcome : Nat → Nat → ItemOutcome) (fidx : Nat)
    (feeds : List FeedFetch) (st : RunState) :
    List (List HistoryPayload) × RunState :=
  match feeds with
  | [] => ([], st)
  | FeedFetch.noAddr :: rest => refreshFeeds outcome (fidx + 1) rest st
  | FeedFetch.fetched items :: rest =>
    if items.isEmpty then
      (st.history :: (refreshFeeds outcome (fidx + 1) rest st).1,
        (refreshFeeds outcome (fidx + 1) rest st).2)
    else
      match processItems (outcome fidx) items 0 st with
      | (st1, LoopExit.halted) => ([st1.history], st1)
      | (st1, _) =>
        (st1.history :: (refreshFeeds outcome (fidx + 1) rest st1).1,
          (refreshFeeds outcome (fidx + 1) rest st1).2)

theorem processItems_extends (outcome : Nat → ItemOutcome)
    (items : List RssInfo) (i : Nat) (st : RunState) :
    ∃ new : List HistoryPayload,
      (processItems outcome items i st).1.history = st.history ++ new
      ∧ (new.map (fun h => h.unique)).Nodup
      ∧ ∀ k ∈ new.map (fun h => h.unique), k ∉ st.unique_flags := by
  induction items generalizing i st with
  | nil => exact ⟨[], by simp [processItems], by simp, by simp⟩
  | cons info rest ih =>
    cases ho : outcome i with
    | halt => exact ⟨[], by simp [processItems, ho], by simp, by simp⟩
    | raiseExc =>
      by_cases ht : info.title = ""
      · simpa [processItems, ho, ht] using ih (i + 1) st
      · by_cases hf : mkUniqueFlag info ∈ st.unique_flags
        · simpa [processItems, ho, ht, hf] using ih (i + 1) st
        · exact ⟨[], by simp [processItems, ho, ht, hf], by simp, by simp⟩
    | record p =>
      by_cases ht : info.title = ""
      · simpa [processItems, ho, ht] using ih (i + 1) st
      · by_cases hf : mkUniqueFlag info ∈ st.unique_flags
        · simpa [processItems, ho, ht, hf] using ih (i + 1) st
        · obtain ⟨new, h1, h2, h3⟩ := ih (i + 1)
            ⟨st.history ++ [{ p with unique := mkUniqueFlag info }],
              mkUniqueFlag info :: st.unique_flags⟩
          refine ⟨{ p with unique := mkUniqueFlag info } :: new, ?_, ?_, ?_⟩
          · rw [show (processItems outcome (info :: rest) i st).1
                = (processItems outcome rest (i + 1)
                    ⟨st.history ++ [{ p with unique := mkUniqueFlag info }],
                      mkUniqueFlag info :: st.unique_flags⟩).1 from
              by simp [processItems, ho, ht, hf], h1]
            simp
          · refine List.nodup_cons.mpr ⟨?_, h2⟩
            intro hmem
            exact h3 _ (by simpa using hmem) (List.mem_cons_self _ _)
          · intro k hk
            rcases List.mem_cons.mp hk with rfl | hk
            · exact hf
            · intro hks
              exact h3 k hk (List.mem_cons_of_mem _ hks)

theorem processItems_not_halted (outcome : Nat → ItemOutcome)
    (items : List RssInfo) (i : Nat) (st : RunState)
    (h : ∀ j, outcome j ≠ ItemOutcome.halt) :
    (processItems outcome items i st).2 ≠ LoopExit.halted := by
  induction items generalizing i st with
  | nil => simp [processItems]
  | cons info rest ih =>
    cases ho : outcome i with
    | halt => exact absurd ho (h i)
    | raiseExc =>
      by_cases ht : info.title = ""
      · simpa [processItems, ho, ht] using ih (i + 1) st
      · by_cases hf : mkUniqueFlag info ∈ st.unique_flags
        · simpa [processItems, ho, ht, hf] using ih (i + 1) st
        · simp [processItems, ho, ht, hf]
    | record p =>
      by_cases ht : info.title = ""
      · simpa [processItems, ho, ht] using ih (i + 1) st
      · by_cases hf : mkUniqueFlag info ∈ st.unique_flags
        · simpa [processItems, ho, ht, hf] using ih (i + 1) st
        · simpa [processItems, ho, ht, hf] using ih (i + 1) _

/-- C1: a refresh run seeded with the persisted history never appends an
entry whose uniqueness key is already recorded — the occurrence count of
every already-present key is unchanged by the run — and runs preserve
key-uniqueness of the saved history, so repeated runs never produce two
entries sharing a key. -/
theorem refresh_no_duplicate_history (outcome : Nat → ItemOutcome)
    (items : List RssInfo) (i : Nat) (history0 : List HistoryPayload) :
    (∀ k, k ∈ history0.map (fun h => h.unique) →
      ((processItems outcome items i (initRunState history0)).1.history.map
          (fun h => h.unique)).count k
        = (history0.map (fun h => h.unique)).count k)
    ∧ ((history0.map (fun h => h.unique)).Nodup →
      ((processItems outcome items i (initRunState history0)).1.history.map
          (fun h => h.unique)).Nodup) := by
  obtain ⟨new, h1, h2, h3⟩ :=
    processItems_extends outcome items i (initRunState history0)
  have hflags : (initRunState history0).unique_flags
      = history0.map (fun h => h.unique) := rfl
  have hhist : (initRunState history0).history = history0 := rfl
  rw [hhist] at h1
  rw [hflags] at h3
  constructor
  · intro k hk
    rw [h1, List.map_append, List.count_append]
    have hz : (new.map (fun h => h.unique)).count k = 0 := by
      rw [List.count_eq_zero]
      intro hmem
      exact h3 k hmem hk
    rw [hz]
    simp
  · intro hnd
    rw [h1, List.map_append]
    exact List.Nodup.append hnd h2 (fun a ha hb => h3 a hb ha)

/-- Witness for C1: an item whose key is already in the persisted history
leaves that key's occurrence count at one. -/
theorem refresh_no_duplicate_history_witness :
    ((processItems
        (fun _ => ItemOutcome.record ⟨"t2", "2021", "5", "2", "z", "ok"⟩)
        [⟨"t", "lnk", "movie", some "1", some "2020"⟩] 0
        (initRunState
          [⟨"t", "2020", "0", "1", "doubanrankplus_t_2020_(DB:1)", "x"⟩])).1.history.map
        (fun h => h.unique)).count "doubanrankplus_t_2020_(DB:1)" = 1 := by
  have h := (refresh_no_duplicate_history
    (fun _ => ItemOutcome.record ⟨"t2", "2021", "5", "2", "z", "ok"⟩)
    [⟨"t", "lnk", "movie", some "1", some "2020"⟩] 0
    [⟨"t", "2020", "0", "1", "doubanrankplus_t_2020_(DB:1)", "x"⟩]).1
    "doubanrankplus_t_2020_(DB:1)" (by decide)
  rw [h]
  decide

/-- C8: with no run-stopping outcome pending (only successes, skips or
exceptions), every feed with a non-empty address — including feeds whose
fetch failed and returned the empty list, and feeds whose processing
raised — contributes exactly one persisted history snapshot, and every
snapshot extends the history the run started with (partial progress is
saved before the next feed is processed). -/
theorem feed_failures_isolated_history_persisted
    (outcome : Nat → Nat → ItemOutcome) (fidx : Nat) (feeds : List FeedFetch)
    (st : RunState) (hnh : ∀ i j, outcome i j ≠ ItemOutcome.halt) :
    (refreshFeeds outcome fidx feeds st).1.length
      = (feeds.filter (fun f => !f.isNoAddr)).length
    ∧ ∀ s ∈ (refreshFeeds outcome fidx feeds st).1, ∃ t, s = st.history ++ t := by
  induction feeds generalizing fidx st with
  | nil => simp [refreshFeeds]
  | cons f rest ih =>
    cases f with
    | noAddr =>
      simpa [refreshFeeds, FeedFetch.isNoAddr] using ih (fidx + 1) st
    | fetched items =>
      by_cases hemp : items.isEmpty
      · obtain ⟨ihl, ihp⟩ := ih (fidx + 1) st
        constructor
        · simp [refreshFeeds, hemp, FeedFetch.isNoAddr, ihl]
        · intro s hs
          simp only [refreshFeeds, hemp, if_true] at hs
          rcases List.mem_cons.mp hs with rfl | hs
          · exact ⟨[], by simp⟩
          · exact ihp s hs
      · rcases hps : processItems (outcome fidx) items 0 st with ⟨st1, ex⟩
        have hex : ex ≠ LoopExit.halted := by
          have hh := processItems_not_halted (outcome fidx) items 0 st
            (fun j => hnh fidx j)
          rw [hps] at hh
          exact hh
        have hext : ∃ new, st1.history = st.history ++ new := by
          obtain ⟨new, hn1, _, _⟩ := processItems_extends (outcome fidx) items 0 st
          rw [hps] at hn1
          exact ⟨new, hn1⟩
        obtain ⟨ihl, ihp⟩ := ih (fidx + 1) st1
        have hred : refreshFeeds outcome fidx (FeedFetch.fetched items :: rest) st
            = (st1.history :: (refreshFeeds outcome (fidx + 1) rest st1).1,
              (refreshFeeds outcome (fidx + 1) rest st1).2) := by
          cases ex with
          | halted => exact absurd rfl hex
          | normal => simp [refreshFeeds, hemp, hps]
          | raised => simp [refreshFeeds, hemp, hps]
        constructor
        · rw [hred]
          simp [FeedFetch.isNoAddr, ihl]
        · rw [hred]
          intro s hs
          obtain ⟨new, hne⟩ := hext
          rcases List.mem_cons.mp hs with rfl | hs
          · exact ⟨new, hne⟩
          · obtain ⟨t, htt⟩ := ihp s hs
            exact ⟨new ++ t, by rw [htt, hne, List.append_assoc]⟩

/-- Witness for C8: a raising feed, an empty address and a failed fetch
still yield one saved snapshot per real feed (two in total). -/
theorem feed_failures_isolated_history_persisted_witness :
    (refreshFeeds (fun _ _ => ItemOutcome.raiseExc) 0
        [FeedFetch.fetched [⟨"t", "l", "movie", some "1", some "2020"⟩],
          FeedFetch.noAddr, FeedFetch.fetched []]
        (initRunState [])).1.length = 2 := by
  have h := (feed_failures_isolated_history_persisted
    (fun _ _ => ItemOutcome.raiseExc) 0
    [FeedFetch.fetched [⟨"t", "l", "movie", some "1", some "2020"⟩],
      FeedFetch.noAddr, FeedFetch.fetched []]
    (initRunState []) (fun i j h => ItemOutcome.noConfusion h)).1
  rw [h]
  decide

/-! ## Douban-to-TMDB resolution (`DoubanRankPlus.__douban_info` /
`__get_tmdbinfo_by_doubanid`) -/

/-- The media types the rank plugin distinguishes when routing the
Douban detail lookups. -/
inductive MediaType where
  | movie
  | tv
  | unknown
deriving DecidableEq

/-- A Douban detail answer, reduced to the fields the resolution reads:
the error message (carrying `subject_ip_rate_limit` on a rate limit) and
the two title fields. -/
structure DoubanDetail where
  msg : String
  title : String
  original_title : String
  year : String
deriving DecidableEq

/-- Whether the first char list starts the second one. -/
def charsStartWith : List Char → List Char → Bool
  | [], _ => true
  | _ :: _, [] => false
  | a :: as, b :: bs => a == b && charsStartWith as bs

/-- Whether the first char list occurs inside the second one. -/
def charsContain (pat : List Char) : List Char → Bool
  | [] => pat.isEmpty
  | b :: bs => charsStartWith pat (b :: bs) || charsContain pat bs

/-- Python `pat in s` on strings. -/
def strContains (s pat : String) : Bool :=
  charsContain pat.toList s.toList

/-- Which Douban detail endpoint was called. -/
inductive DoubanLookup where
  | movie
  | tv
deriving DecidableEq

/-- The shared body of the inner `__douban_tv` / `__douban_movie`
helpers (doubanrankplus/__init__.py:1678-1700): a non-null answer whose
`msg` contains `subject_ip_rate_limit` becomes `(None, True)`, anything
else is passed through with `False`. -/
def detailCheck (info : Option DoubanDetail) : Option DoubanDetail × Bool :=
  match info with
  | some i =>
    if strContains i.msg "subject_ip_rate_limit" then (none, true)
    else (some i, false)
  | none => (none, false)

/-- `DoubanRankPlus.__douban_info` (doubanrankplus/__init__.py:1664-1713),
with the two endpoint answers supplied as oracles and the sequence of
endpoints actually called returned as a trace: an empty Douban id short
circuits; a TV media type goes straight to the TV lookup; otherwise the
movie lookup runs first and the TV lookup only when it yielded nothing
without a rate limit. -/
def doubanInfo (doubanid : String) (mtype : MediaType)
    (movieRes tvRes : Option DoubanDetail) :
    Option DoubanDetail × Bool × List DoubanLookup :=
  if doubanid.isEmpty then (none, false, [])
  else if mtype = MediaType.tv then
    ((detailCheck tvRes).1, (detailCheck tvRes).2, [DoubanLookup.tv])
  else
    let m := detailCheck movieRes
    if m.1.isNone && !m.2 then
      ((detailCheck tvRes).1, (detailCheck tvRes).2,
        [DoubanLookup.movie, DoubanLookup.tv])
    else
      (m.1, m.2, [DoubanLookup.movie])

/-- Python `list(dict.fromkeys(l))`: deduplicate keeping the first
occurrence order (doubanrankplus/__init__.py:1639-1643). -/
def pyDedup (l : List String) : List String :=
  l.foldl (fun acc n => if n ∈ acc then acc else acc ++ [n]) []

/-- The candidate-name list of `__get_tmdbinfo_by_doubanid`
(doubanrankplus/__init__.py:1638-1646): original title first when
present, then the localized title, then the parsed Chinese/English names
from `MetaInfo`, deduplicated and with empty names removed. -/
def metaNames (original_title title cn_name en_name : String) : List String :=
  (if original_title.isEmpty then pyDedup [title, cn_name, en_name]
   else pyDedup [original_title, title, cn_name, en_name]).filter
    (fun n => !n.isEmpty)

/-- The matching loop of `__get_tmdbinfo_by_doubanid`
(doubanrankplus/__init__.py:1650-1662): the host matcher
`mediachain.match_tmdbinfo` is the oracle `matchFn` (a found TMDB info is
reduced to its id); the first non-empty match is returned. -/
def firstTmdbMatch (matchFn : String → Option Nat) :
    List String → Option Nat
  | [] => none
  | n :: rest =>
    match matchFn n with
    | some t => some t
    | none => firstTmdbMatch matchFn rest

/-- `DoubanRankPlus.__get_tmdbinfo_by_doubanid`
(doubanrankplus/__init__.py:1608-1662): rate limit or no Douban info
short circuits, otherwise the name-matching loop runs on the candidate
list.  The `MetaInfo` parse of the chosen title is abstracted by the
`cn_name`/`en_name` oracles. -/
def getTmdbinfoByDoubanid (doubanid : String) (mtype : MediaType)
    (movieRes tvRes : Option DoubanDetail) (cn_name en_name : String)
    (matchFn : String → Option Nat) : Option Nat × Bool :=
  let di := doubanInfo doubanid mtype movieRes tvRes
  match di.1, di.2.1 with
  | _, true => (none, true)
  | none, false => (none, false)
  | some info, false =>
    (firstTmdbMatch matchFn
      (metaNames info.original_title info.title cn_name en_name), false)

/-- A concrete Douban detail answer used in the C9 counterexample and
witness. -/
def sampleDoubanDetail : DoubanDetail :=
  ⟨"", "标题", "Orig", "2020"⟩

/-- C9 counterexample: for an item whose known media type is TV, the
resolution calls only the Douban TV-detail endpoint — the movie-detail
lookup the claim says comes first is never tried. -/
theorem douban_lookup_order_counterexample :
    (doubanInfo "30483637" MediaType.tv (some sampleDoubanDetail)
        (some sampleDoubanDetail)).2.2 = [DoubanLookup.tv]
    ∧ DoubanLookup.tv ≠ DoubanLookup.movie := by
  decide

/-- C9 (amended): when the media type is TV only the TV-detail lookup is
tried; otherwise the movie-detail lookup runs first and the TV lookup
exactly when the movie lookup yielded nothing without a rate limit; TMDB
candidates are then matched in order (original title, localized title,
parsed names), the first hit wins, and the result is empty only when
every candidate fails. -/
theorem douban_to_tmdb_resolution_order (doubanid : String)
    (mtype : MediaType) (movieRes tvRes : Option DoubanDetail)
    (matchFn : String → Option Nat) (names : List String) (n : String)
    (cn_name en_name : String) (hid : doubanid.isEmpty = false) :
    (mtype = MediaType.tv →
      doubanInfo doubanid mtype movieRes tvRes
        = ((detailCheck tvRes).1, (detailCheck tvRes).2, [DoubanLookup.tv]))
    ∧ (mtype ≠ MediaType.tv → detailCheck movieRes = (none, false) →
      doubanInfo doubanid mtype movieRes tvRes
        = ((detailCheck tvRes).1, (detailCheck tvRes).2,
            [DoubanLookup.movie, DoubanLookup.tv]))
    ∧ (mtype ≠ MediaType.tv → detailCheck movieRes ≠ (none, false) →
      doubanInfo doubanid mtype movieRes tvRes
        = ((detailCheck movieRes).1, (detailCheck movieRes).2,
            [DoubanLookup.movie]))
    ∧ (firstTmdbMatch matchFn names = none ↔ ∀ m ∈ names, matchFn m = none)
    ∧ (∀ t, matchFn n = some t →
        firstTmdbMatch matchFn (n :: names) = some t)
    ∧ (∀ info : DoubanDetail,
        (doubanInfo doubanid mtype movieRes tvRes).1 = some info →
        (doubanInfo doubanid mtype movieRes tvRes).2.1 = false →
        getTmdbinfoByDoubanid doubanid mtype movieRes tvRes cn_name en_name
            matchFn
          = (firstTmdbMatch matchFn
              (metaNames info.original_title info.title cn_name en_name),
            false)) := by
  refine ⟨?_, ?_, ?_, ?_, ?_, ?_⟩
  · intro hm
    simp [doubanInfo, hid, hm]
  · intro hm hmov
    simp [doubanInfo, hid, hm, hmov]
  · intro hm hmov
    have hcond : ((detailCheck movieRes).1.isNone && !(detailCheck movieRes).2)
        = false := by
      rcases hmc : detailCheck movieRes with ⟨o, b⟩
      rcases o with _ | i <;> rcases b <;> simp_all
    simp [doubanInfo, hid, hm, hcond]
  · induction names with
    | nil => simp [firstTmdbMatch]
    | cons m rest ih =>
      cases hm : matchFn m with
      | some t =>
        simp only [firstTmdbMatch, hm]
        constructor
        · intro hsome
          cases hsome
        · intro hall
          have := hall m (List.mem_cons_self _ _)
          rw [hm] at this
          cases this
      | none =>
        simp only [firstTmdbMatch, hm]
        rw [ih]
        constructor
        · intro hall x hx
          rcases List.mem_cons.mp hx with rfl | hx
          · exact hm
          · exact hall x hx
        · intro hall x hx
          exact hall x (List.mem_cons_of_mem _ hx)
  · intro t ht
    simp [firstTmdbMatch, ht]
  · intro info hinfo hlim
    simp only [getTmdbinfoByDoubanid]
    rw [hinfo, hlim]

/-- Witness for C9 (amended) at a concrete movie-typed item: only the
movie lookup runs and the matcher's first hit is returned. -/
theorem douban_to_tmdb_resolution_order_witness :
    doubanInfo "30483637" MediaType.movie (some sampleDoubanDetail) none
      = (some sampleDoubanDetail, false, [DoubanLookup.movie])
    ∧ firstTmdbMatch (fun s => if s = "Orig" then some 42 else none)
        ["Orig", "标题"] = some 42 := by
  have h := douban_to_tmdb_resolution_order "30483637" MediaType.movie
    (some sampleDoubanDetail) none
    (fun s => if s = "Orig" then some 42 else none) ["标题"] "Orig"
    "cn" "en" (by decide)
  constructor
  · have h3 := h.2.2.1 (by decide) (by decide)
    rw [h3]
    decide
  · exact h.2.2.2.2.1 42 (by decide)
